import Mathlib

/-!
Verification of the ArcGIS tile-cache server (src/index.ts and the tile
reader module it imports).  The development shallowly embeds the two
compact-cache decoders (`readTileV1`, `readTileV2`), the bundle naming
helper (`getBundleInfo`), and the raster tile HTTP route handler, and
proves the specified addressing, validation and error-handling properties
about them.

Modelling conventions:
* File contents are `List Nat` of byte values; `readBytesAt` reproduces
  Node's `fs.read` into a zero-filled `Buffer.alloc` buffer: bytes past
  the end of the file stay `0` (partial reads do not throw), and each
  stored entry is normalised `% 256` since real buffer bytes are 0..255.
* The file system is a total map from path strings to a `FileState`:
  `missing` (open rejects), `present data` (open and reads succeed), or
  `faulty` (open succeeds but any read rejects — models an I/O fault on
  an already-opened handle, e.g. EIO).
* Decoder runs are instrumented records: besides the returned value they
  record the bundle naming info that was computed, the byte position of
  the index/record read, the decoded record value, and how often each
  file handle was opened and closed.  The plain decoders project out the
  `result` field.
* A thrown/rejected promise escaping a decoder is the `ioError` result;
  returning `null` is `absent`; returning a buffer is `ok bytes`.
* Tile coordinates are natural numbers (the spec restricts addresses to
  non-negative integers); HTTP path parameters are modelled as the
  `Option Nat` outcome of `parseInt` (`none` = NaN).
-/

set_option maxRecDepth 100000

/-- Node `fs.read` into a zero-filled buffer: byte `i` of an `n`-byte read
at `pos` is the file byte at `pos + i`, or `0` past end-of-file. -/
def readBytesAt (data : List Nat) (pos n : Nat) : List Nat :=
  (List.range n).map (fun i => data.getD (pos + i) 0 % 256)

/-- Little-endian unsigned interpretation of a byte list
(`Buffer.readUIntLE` semantics). -/
def leUInt : List Nat → Nat
  | [] => 0
  | b :: bs => b + 256 * leUInt bs

/-- `buffer.readUIntLE(0, 5)` after a 5-byte read at `pos`. -/
def readUIntLE5 (data : List Nat) (pos : Nat) : Nat :=
  leUInt (readBytesAt data pos 5)

/-- `buffer.readUInt32LE(0)` after a 4-byte read at `pos`. -/
def readUInt32LE (data : List Nat) (pos : Nat) : Nat :=
  leUInt (readBytesAt data pos 4)

/-- Two's-complement reinterpretation of a 32-bit unsigned value. -/
def toInt32 (u : Nat) : Int :=
  if u % 4294967296 < 2147483648 then ((u % 4294967296 : Nat) : Int)
  else ((u % 4294967296 : Nat) : Int) - 4294967296

/-- `buffer.readInt32LE(0)` after a 4-byte read at `pos`. -/
def readInt32LE (data : List Nat) (pos : Nat) : Int :=
  toInt32 (readUInt32LE data pos)

/-- JavaScript `String.prototype.padStart(len, c)`: pad on the left up to
`len` characters (longer strings are returned unchanged). -/
def padStart (s : String) (len : Nat) (c : Char) : String :=
  String.mk (List.replicate (len - s.length) c) ++ s

/-- Result of `getBundleInfo` in the tile reader module: the three name
components and the group-origin coordinates. -/
structure BundleInfo where
  L : String
  R : String
  C : String
  rGroup : Nat
  cGroup : Nat
deriving Repr, DecidableEq

/-- Embedding of `getBundleInfo(col, row, level, packetSize = 128)`:
`rGroup = Math.floor(row / packetSize) * packetSize` (likewise `cGroup`),
`L = 'L' + level.toString().padStart(2, '0')`,
`R = 'R' + rGroup.toString(16).padStart(4, '0')`,
`C = 'C' + cGroup.toString(16).padStart(4, '0')`.
`Nat.toDigits 16` yields the same lowercase hex digits as JS
`toString(16)` for non-negative integers. -/
def getBundleInfo (col row level packetSize : Nat) : BundleInfo :=
  let rGroup := row / packetSize * packetSize
  let cGroup := col / packetSize * packetSize
  { L := "L" ++ padStart (toString level) 2 '0',
    R := "R" ++ padStart (String.mk (Nat.toDigits 16 rGroup)) 4 '0',
    C := "C" ++ padStart (String.mk (Nat.toDigits 16 cGroup)) 4 '0',
    rGroup := rGroup,
    cGroup := cGroup }

/-- State of one path in the modelled file system. -/
inductive FileState where
  | missing
  | present (data : List Nat)
  | faulty
deriving Repr, DecidableEq

/-- A file system: total map from path to state. -/
abbrev FS := String → FileState

/-- Outcome of a decoder call: returned buffer, returned `null`, or a
rejected promise (thrown error escaping the function). -/
inductive TileResult where
  | ok (bytes : List Nat)
  | absent
  | ioError
deriving Repr, DecidableEq

/-- Path of the `.bundlx` index file, as joined in `readTileV1`. -/
def bundlxPath (dir : String) (info : BundleInfo) : String :=
  dir ++ "/" ++ info.L ++ "/" ++ info.R ++ info.C ++ ".bundlx"

/-- Path of the `.bundle` data file, as joined in both decoders. -/
def bundlePath (dir : String) (info : BundleInfo) : String :=
  dir ++ "/" ++ info.L ++ "/" ++ info.R ++ info.C ++ ".bundle"

/-- Instrumented trace of one `readTileV1` call. -/
structure V1Run where
  result : TileResult
  info : BundleInfo
  idxReadPos : Option Nat
  offset : Option Nat
  bundlxOpened : Nat
  bundlxClosed : Nat
  bundleOpened : Nat
  bundleClosed : Nat
deriving Repr, DecidableEq

/-- Embedding of `readTileV1(allLayersDir, z, x, y, packetSize = 128)`.
The source calls `getBundleInfo(x, y, z)` WITHOUT forwarding `packetSize`
(so the group and file stem always use the default 128), opens the
`.bundlx` with no try/catch (a failed open or a throwing read escapes the
function, and a throwing read skips the `close`), computes
`index = packetSize * (x - cGroup) + (y - rGroup)`, reads 5 bytes at
`16 + 5 * index` as an unsigned little-endian offset, returns `null` on a
zero offset before touching the `.bundle`, then reads a signed 32-bit
length at `offset`, rejects `length <= 0 || length > 1_000_000` with
`null`, and otherwise returns the `length` bytes at `offset + 4`. -/
def readTileV1Run (dir : String) (fs : FS) (z x y packetSize : Nat) : V1Run :=
  let info := getBundleInfo x y z 128
  match fs (bundlxPath dir info) with
  | FileState.missing => ⟨TileResult.ioError, info, none, none, 0, 0, 0, 0⟩
  | FileState.faulty => ⟨TileResult.ioError, info, none, none, 1, 0, 0, 0⟩
  | FileState.present idx =>
    let index := packetSize * (x - info.cGroup) + (y - info.rGroup)
    let pos := 16 + 5 * index
    let offset := readUIntLE5 idx pos
    if offset = 0 then
      ⟨TileResult.absent, info, some pos, some offset, 1, 1, 0, 0⟩
    else
      match fs (bundlePath dir info) with
      | FileState.missing => ⟨TileResult.ioError, info, some pos, some offset, 1, 1, 0, 0⟩
      | FileState.faulty => ⟨TileResult.ioError, info, some pos, some offset, 1, 1, 1, 0⟩
      | FileState.present bdl =>
        let length := readInt32LE bdl offset
        if length ≤ 0 ∨ length > 1000000 then
          ⟨TileResult.absent, info, some pos, some offset, 1, 1, 1, 1⟩
        else
          ⟨TileResult.ok (readBytesAt bdl (offset + 4) length.toNat), info,
            some pos, some offset, 1, 1, 1, 1⟩

/-- Value returned by `readTileV1`. -/
def readTileV1 (dir : String) (fs : FS) (z x y packetSize : Nat) : TileResult :=
  (readTileV1Run dir fs z x y packetSize).result

/-- Instrumented trace of one `readTileV2` call. -/
structure V2Run where
  result : TileResult
  info : BundleInfo
  recordOffset : Option Nat
  dataOffset : Option Int
  opened : Nat
  closed : Nat
deriving Repr, DecidableEq

/-- Embedding of `readTileV2(allLayersDir, col, row, level, packetSize = 128)`.
The source forwards `packetSize` to `getBundleInfo`, catches a failed open
and returns `null`, and wraps all reads in try/finally so the handle is
closed on every path.  It reads the 64-byte header and requires
`readUInt32LE(0) === 3`, computes
`tileIndex = packetSize * (row - rGroup) + (col - cGroup)` and
`recordOffset = 64 + 8 * tileIndex`, reads the first 4 bytes of the slot
as a signed little-endian `dataOffset`, returns `null` when it is zero,
reads a signed 32-bit length at `dataOffset - 4`, rejects only
`tileSize <= 0`, and returns the `tileSize` bytes at `dataOffset`.
A record value `0 < dataOffset < 4` would make the length read use a
negative position, which `fs.read` rejects; it is modelled as the
thrown-error outcome. -/
def readTileV2Run (dir : String) (fs : FS) (col row level packetSize : Nat) : V2Run :=
  let info := getBundleInfo col row level packetSize
  match fs (bundlePath dir info) with
  | FileState.missing => ⟨TileResult.absent, info, none, none, 0, 0⟩
  | FileState.faulty => ⟨TileResult.ioError, info, none, none, 1, 1⟩
  | FileState.present bdl =>
    let version := readUInt32LE bdl 0
    if version ≠ 3 then ⟨TileResult.absent, info, none, none, 1, 1⟩
    else
      let tileIndex := packetSize * (row - info.rGroup) + (col - info.cGroup)
      let recOff := 64 + 8 * tileIndex
      let dataOffset := readInt32LE bdl recOff
      if dataOffset = 0 then ⟨TileResult.absent, info, some recOff, some dataOffset, 1, 1⟩
      else if dataOffset < 4 then
        ⟨TileResult.ioError, info, some recOff, some dataOffset, 1, 1⟩
      else
        let tileSize := readInt32LE bdl (dataOffset - 4).toNat
        if tileSize ≤ 0 then ⟨TileResult.absent, info, some recOff, some dataOffset, 1, 1⟩
        else
          ⟨TileResult.ok (readBytesAt bdl dataOffset.toNat tileSize.toNat), info,
            some recOff, some dataOffset, 1, 1⟩

/-- Value returned by `readTileV2`. -/
def readTileV2 (dir : String) (fs : FS) (col row level packetSize : Nat) : TileResult :=
  (readTileV2Run dir fs col row level packetSize).result

/-- Response produced by the raster tile route. -/
inductive HttpResponse where
  | payload (contentType : String) (body : List Nat)
  | sendFile (filePath : String)
  | status (code : Nat) (msg : String)
deriving Repr, DecidableEq

/-- The per-map configuration the route reads from the parsed `conf.xml`
(the fields it actually uses). -/
structure TileConf where
  tileType : String
  imageFormat : String
  packetSize : Nat
deriving Repr, DecidableEq

/-- Instrumented trace of one raster tile request. -/
structure RouteRun where
  response : HttpResponse
  invokedV1 : Bool
  invokedV2 : Bool
deriving Repr, DecidableEq

/-- JS truthiness of a `parseInt` outcome: `NaN` (here `none`) and `0`
are falsy. -/
def isFalsy : Option Nat → Bool
  | none => true
  | some 0 => true
  | some (_ + 1) => false

/-- `fs.existsSync`: true for any openable path. -/
def existsSync : FileState → Bool
  | FileState.missing => false
  | FileState.present _ => true
  | FileState.faulty => true

/-- Embedding of the raster tile route handler
(`GET /:root/:mapName/MapServer/tile/:level/:row/:col`).  It first
rejects falsy `mapName`/`level`/`row`/`col` with
`400 'Missing parameters'`; for the `loose` type it probes
`L<2-digit dec>/R<8-digit hex>/C<8-digit hex>{.jpg,.jpeg,.png}` with
`existsSync` and sends the first hit (else `404 'Raster Tile not found'`);
otherwise it calls `readTileV1(dir, level, col, row)` (note: `packetSize`
from the configuration is NOT passed, so the default 128 applies) or
`readTileV2(dir, col, row, level, packetSize)`, maps a `null` buffer —
which is also what any unrecognised `tileType` leaves behind — to
`404 'Tile not found or empty.'`, sends the buffer with
`Content-Type: image/<format>` on success, and maps a thrown error to
`500 'Internal server error.'`. -/
def tileRouteRun (fs : FS) (conf : TileConf) (mapName : String)
    (levelP rowP colP : Option Nat) : RouteRun :=
  if (mapName == "") || isFalsy levelP || isFalsy rowP || isFalsy colP then
    ⟨HttpResponse.status 400 "Missing parameters", false, false⟩
  else
    let level := levelP.getD 0
    let row := rowP.getD 0
    let col := colP.getD 0
    let allLayers := mapName ++ "/_alllayers"
    if conf.tileType == "loose" then
      let Ldir := "L" ++ padStart (toString level) 2 '0'
      let Rdir := "R" ++ padStart (String.mk (Nat.toDigits 16 row)) 8 '0'
      let Cfile := "C" ++ padStart (String.mk (Nat.toDigits 16 col)) 8 '0'
      let base := allLayers ++ "/" ++ Ldir ++ "/" ++ Rdir ++ "/" ++ Cfile
      match [".jpg", ".jpeg", ".png"].find? (fun ext => existsSync (fs (base ++ ext))) with
      | some ext => ⟨HttpResponse.sendFile (base ++ ext), false, false⟩
      | none => ⟨HttpResponse.status 404 "Raster Tile not found", false, false⟩
    else if conf.tileType == "v1" then
      match readTileV1 allLayers fs level col row 128 with
      | TileResult.ok bytes =>
        ⟨HttpResponse.payload ("image/" ++ conf.imageFormat) bytes, true, false⟩
      | TileResult.absent =>
        ⟨HttpResponse.status 404 "Tile not found or empty.", true, false⟩
      | TileResult.ioError =>
        ⟨HttpResponse.status 500 "Internal server error.", true, false⟩
    else if conf.tileType == "v2" then
      match readTileV2 allLayers fs col row level conf.packetSize with
      | TileResult.ok bytes =>
        ⟨HttpResponse.payload ("image/" ++ conf.imageFormat) bytes, false, true⟩
      | TileResult.absent =>
        ⟨HttpResponse.status 404 "Tile not found or empty.", false, true⟩
      | TileResult.ioError =>
        ⟨HttpResponse.status 500 "Internal server error.", false, true⟩
    else
      ⟨HttpResponse.status 404 "Tile not found or empty.", false, false⟩

/-! Concrete fixtures used by witnesses and counterexamples. -/

/-- A small arbitrary `.bundlx` content for the V1 lookup witness. -/
def idxC1 : List Nat := [1, 2, 3]

/-- File system holding only the `.bundlx` for tile (z=1, x=2, y=3). -/
def fsC1 : FS := fun p =>
  if p = "d/L01/R0000C0000.bundlx" then FileState.present idxC1 else FileState.missing

/-- A V2 bundle holding just a version-3 header prefix. -/
def bdlC2 : List Nat := [3, 0, 0, 0]

/-- File system holding only that V2 bundle for tile (0, 0, 0). -/
def fsC2 : FS := fun p =>
  if p = "d/L00/R0000C0000.bundle" then FileState.present bdlC2 else FileState.missing

/-- A `.bundlx` whose slot 0 record (bytes 16..20) is the nonzero offset 9. -/
def idxC4 : List Nat := List.replicate 16 0 ++ [9]

/-- File system with that `.bundlx` present but the `.bundle` missing. -/
def fsC4 : FS := fun p =>
  if p = "d/L01/R0000C0000.bundlx" then FileState.present idxC4 else FileState.missing

/-- A `.bundlx` whose slot 0 record is the data offset 20. -/
def idxLen : List Nat := List.replicate 16 0 ++ [20]

/-- A V1 `.bundle` whose length field at offset 20 is 1000001 (LE). -/
def bdlLen : List Nat := List.replicate 20 0 ++ [65, 66, 15, 0]

/-- File system with the V1 pair for tile (0, 0, 0). -/
def fsLen : FS := fun p =>
  if p = "d/L00/R0000C0000.bundlx" then FileState.present idxLen
  else if p = "d/L00/R0000C0000.bundle" then FileState.present bdlLen
  else FileState.missing

/-- A V2 bundle: version 3, slot 0 record = data offset 72, and the
length field at 68 equal to 1000001 (LE). -/
def bdlLen2 : List Nat :=
  [3, 0, 0, 0] ++ List.replicate 60 0 ++ [72, 0, 0, 0] ++ [65, 66, 15, 0]

/-- File system with that V2 bundle for tile (0, 0, 0). -/
def fsLen2 : FS := fun p =>
  if p = "d/L00/R0000C0000.bundle" then FileState.present bdlLen2 else FileState.missing

/-- An empty `.bundlx`: all record reads yield zero. -/
def fsZero1 : FS := fun p =>
  if p = "d/L00/R0000C0000.bundlx" then FileState.present ([] : List Nat)
  else FileState.missing

/-- A version-3 V2 bundle whose record table reads as all zeros. -/
def fsZero2 : FS := fun p =>
  if p = "d/L00/R0000C0000.bundle" then FileState.present bdlC2 else FileState.missing

/-! Helper lemmas about the byte-level readers. -/

/-- Expansion of a 5-byte unsigned little-endian read into its byte
polynomial. -/
theorem readUIntLE5_eq (data : List Nat) (p : Nat) :
    readUIntLE5 data p =
      data.getD p 0 % 256
      + 256 * (data.getD (p + 1) 0 % 256)
      + 65536 * (data.getD (p + 2) 0 % 256)
      + 16777216 * (data.getD (p + 3) 0 % 256)
      + 4294967296 * (data.getD (p + 4) 0 % 256) := by
  simp only [readUIntLE5, readBytesAt, show List.range 5 = [0, 1, 2, 3, 4] from rfl,
    List.map_cons, List.map_nil, leUInt, Nat.add_zero]
  ring

/-- Expansion of a 4-byte signed little-endian read into its byte
polynomial under the two's-complement reinterpretation. -/
theorem readInt32LE_eq (data : List Nat) (p : Nat) :
    readInt32LE data p =
      toInt32 (data.getD p 0 % 256
        + 256 * (data.getD (p + 1) 0 % 256)
        + 65536 * (data.getD (p + 2) 0 % 256)
        + 16777216 * (data.getD (p + 3) 0 % 256)) := by
  simp only [readInt32LE, readUInt32LE, readBytesAt, show List.range 4 = [0, 1, 2, 3] from rfl,
    List.map_cons, List.map_nil, leUInt, Nat.add_zero]
  congr 1
  ring

/-- C1: for every tile address and packet size, once the `.bundlx` opens,
`readTileV1` reads its index record at byte offset `16 + 5 * slotIndex`
with the column-major slot index
`packetSize * (column - colGroup) + (row - rowGroup)`, and decodes the
5 bytes there as a little-endian unsigned integer. -/
theorem v1_index_record_lookup (dir : String) (fs : FS) (z x y ps : Nat)
    (info : BundleInfo) (hinfo : info = getBundleInfo x y z 128)
    (idx : List Nat) (hidx : fs (bundlxPath dir info) = FileState.present idx)
    (pos : Nat) (hpos : pos = 16 + 5 * (ps * (x - info.cGroup) + (y - info.rGroup))) :
    (readTileV1Run dir fs z x y ps).idxReadPos = some pos
    ∧ (readTileV1Run dir fs z x y ps).offset
        = some (idx.getD pos 0 % 256
            + 256 * (idx.getD (pos + 1) 0 % 256)
            + 65536 * (idx.getD (pos + 2) 0 % 256)
            + 16777216 * (idx.getD (pos + 3) 0 % 256)
            + 4294967296 * (idx.getD (pos + 4) 0 % 256)) := by
  subst hinfo
  subst hpos
  have h5 := readUIntLE5_eq idx
    (16 + 5 * (ps * (x - (getBundleInfo x y z 128).cGroup) + (y - (getBundleInfo x y z 128).rGroup)))
  simp only [readTileV1Run, hidx]
  split
  · simp [h5]
  · split
    · simp [h5]
    · simp [h5]
    · split
      · simp [h5]
      · simp [h5]

/-- C1 witness: the lookup property at the concrete tile (z=1, x=2, y=3)
with packet size 128 over `fsC1`. -/
theorem v1_index_record_lookup_witness :
    (readTileV1Run "d" fsC1 1 2 3 128).idxReadPos = some 1311
    ∧ (readTileV1Run "d" fsC1 1 2 3 128).offset
        = some (idxC1.getD 1311 0 % 256
            + 256 * (idxC1.getD (1311 + 1) 0 % 256)
            + 65536 * (idxC1.getD (1311 + 2) 0 % 256)
            + 16777216 * (idxC1.getD (1311 + 3) 0 % 256)
            + 4294967296 * (idxC1.getD (1311 + 4) 0 % 256)) :=
  v1_index_record_lookup "d" fsC1 1 2 3 128 (getBundleInfo 2 3 1 128) rfl idxC1
    (by decide) 1311 (by decide)

/-- C2: for every tile address and packet size, once the `.bundle` opens
with header version 3, `readTileV2` reads the inline record at byte
offset `64 + 8 * slotIndex` with the row-major slot index
`packetSize * (row - rowGroup) + (column - colGroup)` — the opposite
operand order from V1 — and decodes the first 4 bytes of that slot as a
little-endian signed 32-bit data offset. -/
theorem v2_record_lookup (dir : String) (fs : FS) (col row level ps : Nat)
    (info : BundleInfo) (hinfo : info = getBundleInfo col row level ps)
    (bdl : List Nat) (hbdl : fs (bundlePath dir info) = FileState.present bdl)
    (hver : readUInt32LE bdl 0 = 3)
    (recOff : Nat) (hrec : recOff = 64 + 8 * (ps * (row - info.rGroup) + (col - info.cGroup))) :
    (readTileV2Run dir fs col row level ps).recordOffset = some recOff
    ∧ (readTileV2Run dir fs col row level ps).dataOffset
        = some (toInt32 (bdl.getD recOff 0 % 256
            + 256 * (bdl.getD (recOff + 1) 0 % 256)
            + 65536 * (bdl.getD (recOff + 2) 0 % 256)
            + 16777216 * (bdl.getD (recOff + 3) 0 % 256))) := by
  subst hinfo
  subst hrec
  have h4 := readInt32LE_eq bdl
    (64 + 8 * (ps * (row - (getBundleInfo col row level ps).rGroup)
      + (col - (getBundleInfo col row level ps).cGroup)))
  simp only [readTileV2Run, hbdl, hver]
  split
  · next h => exact absurd rfl h
  · split
    · simp [h4]
    · split
      · simp [h4]
      · split
        · simp [h4]
        · simp [h4]

/-- C2 witness: the lookup property at the concrete tile (0, 0, 0) with
packet size 128 over `fsC2`. -/
theorem v2_record_lookup_witness :
    (readTileV2Run "d" fsC2 0 0 0 128).recordOffset = some 64
    ∧ (readTileV2Run "d" fsC2 0 0 0 128).dataOffset
        = some (toInt32 (bdlC2.getD 64 0 % 256
            + 256 * (bdlC2.getD (64 + 1) 0 % 256)
            + 65536 * (bdlC2.getD (64 + 2) 0 % 256)
            + 16777216 * (bdlC2.getD (64 + 3) 0 % 256))) :=
  v2_record_lookup "d" fsC2 0 0 0 128 (getBundleInfo 0 0 0 128) rfl bdlC2
    (by decide) (by decide) 64 (by decide)

/-- C3 counterexample: calling `readTileV1` with the explicit packet size
64 for row 64 does NOT put the tile in row group `floor(64/64)*64 = 64`;
the code computes the group with the hard-wired default 128 instead. -/
theorem v1_group_ignores_packet_size_cex :
    (readTileV1Run "d" (fun _ => FileState.missing) 0 0 64 64).info.rGroup ≠ 64 / 64 * 64 := by
  decide

/-- C3 amended: `readTileV1` always computes its group coordinates and
bundle file stem with the default packet size 128 — the supplied
`packetSize` argument is not forwarded to `getBundleInfo`, although the
slot-index arithmetic does use it. -/
theorem v1_group_uses_default_packet_size (dir : String) (fs : FS) (z x y ps : Nat) :
    (readTileV1Run dir fs z x y ps).info = getBundleInfo x y z 128 := by
  simp only [readTileV1Run]
  split
  · rfl
  · rfl
  · split
    · rfl
    · split
      · rfl
      · rfl
      · split
        · rfl
        · rfl

/-- C4: evaluation at the failing inputs — with the bundle group files
missing, `readTileV1` lets the failed `fs.open` escape as an error (and
the route turns it into a 500), instead of the absent outcome; the same
happens when the `.bundlx` is present with a nonzero record but the
`.bundle` is missing. -/
theorem v1_missing_files_propagate_error :
    (readTileV1Run "d" (fun _ => FileState.missing) 1 2 3 128).result = TileResult.ioError
    ∧ (readTileV1Run "d" fsC4 1 0 0 128).result = TileResult.ioError
    ∧ (tileRouteRun (fun _ => FileState.missing) ⟨"v1", "png", 128⟩ "m"
        (some 1) (some 3) (some 2)).response = HttpResponse.status 500 "Internal server error."
    ∧ TileResult.ioError ≠ TileResult.absent := by
  decide

/-- C5 counterexample: a request whose format tag is neither v1 nor v2
nor loose gets `404 'Tile not found or empty.'` — the very same response
an absent tile produces under a supported format — so no distinct
unsupported-format error exists. -/
theorem unknown_format_collapses_to_not_found_cex :
    (tileRouteRun (fun _ => FileState.missing) ⟨"unknown", "png", 128⟩ "m"
        (some 1) (some 1) (some 1)).response
      = HttpResponse.status 404 "Tile not found or empty."
    ∧ (tileRouteRun (fun _ => FileState.missing) ⟨"v2", "png", 128⟩ "m"
        (some 1) (some 1) (some 1)).response
      = HttpResponse.status 404 "Tile not found or empty." := by
  decide

/-- C5 amended: for any format tag other than v1, v2 and loose, the tile
route leaves the buffer unset and answers with the same
`404 'Tile not found or empty.'` that an absent tile produces, invoking
no decoder; there is no distinct unsupported-format error. -/
theorem unknown_format_returns_not_found (fs : FS) (conf : TileConf) (mapName : String)
    (levelP rowP colP : Option Nat)
    (hm : (mapName == "") = false)
    (hl : isFalsy levelP = false) (hr : isFalsy rowP = false) (hc : isFalsy colP = false)
    (h1 : conf.tileType ≠ "v1") (h2 : conf.tileType ≠ "v2") (h3 : conf.tileType ≠ "loose") :
    tileRouteRun fs conf mapName levelP rowP colP
      = ⟨HttpResponse.status 404 "Tile not found or empty.", false, false⟩ := by
  simp only [tileRouteRun, hm, hl, hr, hc]
  simp [h1, h2, h3]

/-- C5 amended witness: the 404 collapse at a concrete unrecognised tag. -/
theorem unknown_format_returns_not_found_witness :
    tileRouteRun (fun _ => FileState.missing) ⟨"weird", "png", 128⟩ "m"
        (some 1) (some 1) (some 1)
      = ⟨HttpResponse.status 404 "Tile not found or empty.", false, false⟩ :=
  unknown_format_returns_not_found (fun _ => FileState.missing) ⟨"weird", "png", 128⟩ "m"
    (some 1) (some 1) (some 1) rfl rfl rfl rfl (by decide) (by decide) (by decide)

/-- C6: length validation is asymmetric — with its files open and a
nonzero record, `readTileV1` returns absent exactly when the signed
length is `≤ 0` or `> 1000000`, while `readTileV2` (version-3 bundle,
record ≥ 4) returns absent exactly when the length is `≤ 0` and returns
a buffer of the full length for every positive length, with no upper
bound. -/
theorem length_validation_asymmetry :
    (∀ (dir : String) (fs : FS) (z x y ps : Nat) (info : BundleInfo),
      info = getBundleInfo x y z 128 →
      ∀ (idx bdl : List Nat),
      fs (bundlxPath dir info) = FileState.present idx →
      fs (bundlePath dir info) = FileState.present bdl →
      ∀ (off : Nat),
      off = readUIntLE5 idx (16 + 5 * (ps * (x - info.cGroup) + (y - info.rGroup))) →
      off ≠ 0 →
      ∀ (L : Int), L = readInt32LE bdl off →
      (((readTileV1Run dir fs z x y ps).result = TileResult.absent) ↔ (L ≤ 0 ∨ L > 1000000))
      ∧ (0 < L → L ≤ 1000000 →
          (readTileV1Run dir fs z x y ps).result
            = TileResult.ok (readBytesAt bdl (off + 4) L.toNat)))
    ∧ (∀ (dir : String) (fs : FS) (col row level ps : Nat) (info : BundleInfo),
      info = getBundleInfo col row level ps →
      ∀ (bdl : List Nat),
      fs (bundlePath dir info) = FileState.present bdl →
      readUInt32LE bdl 0 = 3 →
      ∀ (doff : Int),
      doff = readInt32LE bdl (64 + 8 * (ps * (row - info.rGroup) + (col - info.cGroup))) →
      4 ≤ doff →
      ∀ (L : Int), L = readInt32LE bdl (doff - 4).toNat →
      (((readTileV2Run dir fs col row level ps).result = TileResult.absent) ↔ L ≤ 0)
      ∧ (0 < L →
          (readTileV2Run dir fs col row level ps).result
            = TileResult.ok (readBytesAt bdl doff.toNat L.toNat)
          ∧ (readBytesAt bdl doff.toNat L.toNat).length = L.toNat)) := by
  constructor
  · intro dir fs z x y ps info hinfo idx bdl hidx hbdl off hoff hne L hL
    subst hinfo
    simp only [readTileV1Run, hidx]
    rw [← hoff, if_neg hne]
    simp only [hbdl]
    rw [← hL]
    constructor
    · by_cases hc : L ≤ 0 ∨ L > 1000000
      · simp [hc]
      · simp [hc]
    · intro h1 h2
      have hc : ¬(L ≤ 0 ∨ L > 1000000) := by omega
      simp [hc]
  · intro dir fs col row level ps info hinfo bdl hbdl hver doff hdoff hge L hL
    subst hinfo
    simp only [readTileV2Run, hbdl, hver]
    split
    · next h => exact absurd rfl h
    · rw [← hdoff, if_neg (by omega : ¬doff = 0), if_neg (by omega : ¬doff < 4), ← hL]
      constructor
      · by_cases hc : L ≤ 0
        · simp [hc]
        · simp [hc]
      · intro h1
        rw [if_neg (by omega : ¬L ≤ 0)]
        exact ⟨rfl, by simp [readBytesAt]⟩

/-- C6 witness: a length of 1000001 yields absent under V1 but the full
1000001-byte buffer under V2, on concrete bundle fixtures. -/
theorem length_validation_asymmetry_witness :
    (readTileV1Run "d" fsLen 0 0 0 128).result = TileResult.absent
    ∧ (readTileV2Run "d" fsLen2 0 0 0 128).result
        = TileResult.ok (readBytesAt bdlLen2 (Int.toNat 72) (Int.toNat 1000001))
    ∧ (readBytesAt bdlLen2 (Int.toNat 72) (Int.toNat 1000001)).length = Int.toNat 1000001 := by
  refine ⟨?_, ?_⟩
  · exact ((length_validation_asymmetry.1 "d" fsLen 0 0 0 128 (getBundleInfo 0 0 0 128) rfl
      idxLen bdlLen (by decide) (by decide) 20 (by decide) (by decide) 1000001 (by decide)).1).mpr
      (Or.inr (by decide))
  · exact (length_validation_asymmetry.2 "d" fsLen2 0 0 0 128 (getBundleInfo 0 0 0 128) rfl
      bdlLen2 (by decide) (by decide) 72 (by decide) (by decide) 1000001 (by decide)).2 (by decide)

/-- C7: `getBundleInfo` computes the group coordinates
`floor(row/ps)*ps` and `floor(col/ps)*ps` and the bundle stem from the
2-digit zero-padded decimal level and 4-digit zero-padded lowercase-hex
group coordinates; for `row, col < ps` the stem uses `R0000C0000`, and
on the concrete examples: (col 5, row 200, level 12, ps 128) gives
rowGroup 128 with stem `L12R0080C0000`, and rowGroup 2560 renders with a
lowercase hex digit as `R0a00`. -/
theorem bundle_info_grouping_and_stem (level row col ps : Nat) (_hps : 0 < ps) :
    ((getBundleInfo col row level ps).rGroup = row / ps * ps
      ∧ (getBundleInfo col row level ps).cGroup = col / ps * ps
      ∧ (getBundleInfo col row level ps).L = "L" ++ padStart (toString level) 2 '0'
      ∧ (getBundleInfo col row level ps).R
          = "R" ++ padStart (String.mk (Nat.toDigits 16 (row / ps * ps))) 4 '0'
      ∧ (getBundleInfo col row level ps).C
          = "C" ++ padStart (String.mk (Nat.toDigits 16 (col / ps * ps))) 4 '0')
    ∧ (row < ps → col < ps →
        (getBundleInfo col row level ps).rGroup = 0
        ∧ (getBundleInfo col row level ps).cGroup = 0
        ∧ (getBundleInfo col row level ps).R = "R0000"
        ∧ (getBundleInfo col row level ps).C = "C0000")
    ∧ getBundleInfo 5 200 12 128 = ⟨"L12", "R0080", "C0000", 128, 0⟩
    ∧ getBundleInfo 0 2570 3 128 = ⟨"L03", "R0a00", "C0000", 2560, 0⟩ := by
  refine ⟨⟨rfl, rfl, rfl, rfl, rfl⟩, ?_, by decide, by decide⟩
  intro hr hc
  have h1 : row / ps = 0 := Nat.div_eq_of_lt hr
  have h2 : col / ps = 0 := Nat.div_eq_of_lt hc
  refine ⟨?_, ?_, ?_, ?_⟩ <;> simp [getBundleInfo, h1, h2] <;> rfl

/-- C7 witness: the grouping and the in-group stem at the concrete
address (col 3, row 5, level 7) with packet size 128. -/
theorem bundle_info_grouping_and_stem_witness :
    (getBundleInfo 3 5 7 128).rGroup = 5 / 128 * 128
    ∧ ((getBundleInfo 3 5 7 128).R = "R0000" ∧ (getBundleInfo 3 5 7 128).C = "C0000") := by
  have h := bundle_info_grouping_and_stem 7 5 3 128 (by decide)
  exact ⟨h.1.1, (h.2.1 (by decide) (by decide)).2.2⟩

/-- C8: a zero index record makes `readTileV1` return absent without
ever opening the `.bundle` data file, and a zero inline record makes
`readTileV2` return absent; neither raises an error. -/
theorem zero_record_yields_absent :
    (∀ (dir : String) (fs : FS) (z x y ps : Nat) (info : BundleInfo),
      info = getBundleInfo x y z 128 →
      ∀ idx, fs (bundlxPath dir info) = FileState.present idx →
      readUIntLE5 idx (16 + 5 * (ps * (x - info.cGroup) + (y - info.rGroup))) = 0 →
      (readTileV1Run dir fs z x y ps).result = TileResult.absent
      ∧ (readTileV1Run dir fs z x y ps).bundleOpened = 0)
    ∧ (∀ (dir : String) (fs : FS) (col row level ps : Nat) (info : BundleInfo),
      info = getBundleInfo col row level ps →
      ∀ bdl, fs (bundlePath dir info) = FileState.present bdl →
      readUInt32LE bdl 0 = 3 →
      readInt32LE bdl (64 + 8 * (ps * (row - info.rGroup) + (col - info.cGroup))) = 0 →
      (readTileV2Run dir fs col row level ps).result = TileResult.absent) := by
  constructor
  · intro dir fs z x y ps info hinfo idx hidx hzero
    subst hinfo
    simp only [readTileV1Run, hidx]
    rw [if_pos hzero]
    exact ⟨rfl, rfl⟩
  · intro dir fs col row level ps info hinfo bdl hbdl hver hzero
    subst hinfo
    simp only [readTileV2Run, hbdl, hver]
    split
    · next h => exact absurd rfl h
    · rfl

/-- C8 witness: the absent outcome on concrete all-zero record fixtures
for both decoders at tile (0, 0, 0). -/
theorem zero_record_yields_absent_witness :
    ((readTileV1Run "d" fsZero1 0 0 0 128).result = TileResult.absent
      ∧ (readTileV1Run "d" fsZero1 0 0 0 128).bundleOpened = 0)
    ∧ (readTileV2Run "d" fsZero2 0 0 0 128).result = TileResult.absent := by
  constructor
  · exact zero_record_yields_absent.1 "d" fsZero1 0 0 0 128 (getBundleInfo 0 0 0 128) rfl
      [] (by decide) (by decide)
  · exact zero_record_yields_absent.2 "d" fsZero2 0 0 0 128 (getBundleInfo 0 0 0 128) rfl
      bdlC2 (by decide) (by decide) (by decide)

/-- C9 counterexample: when the `.bundlx` read throws (a faulty handle),
`readTileV1` exits with the index handle opened but never closed — there
is no try/finally around the V1 reads, so release on every exit path
fails. -/
theorem v1_read_throw_leaks_handle_cex :
    (readTileV1Run "d" (fun _ => FileState.faulty) 1 2 3 128).bundlxOpened = 1
    ∧ (readTileV1Run "d" (fun _ => FileState.faulty) 1 2 3 128).bundlxClosed = 0 := by
  decide

/-- C9 amended: `readTileV2` closes its single handle exactly once on
every exit path (its reads sit in try/finally); `readTileV1` closes each
handle it opened exactly once on every non-throwing path, but a `.bundlx`
read that throws leaks that handle (the bundle handle leaks likewise). -/
theorem handle_release_discipline :
    (∀ (dir : String) (fs : FS) (col row level ps : Nat),
      (readTileV2Run dir fs col row level ps).closed
          = (readTileV2Run dir fs col row level ps).opened
      ∧ (readTileV2Run dir fs col row level ps).opened ≤ 1)
    ∧ (∀ (dir : String) (fs : FS) (z x y ps : Nat) (info : BundleInfo),
      info = getBundleInfo x y z 128 →
      fs (bundlxPath dir info) ≠ FileState.faulty →
      fs (bundlePath dir info) ≠ FileState.faulty →
      (readTileV1Run dir fs z x y ps).bundlxClosed = (readTileV1Run dir fs z x y ps).bundlxOpened
      ∧ (readTileV1Run dir fs z x y ps).bundleClosed = (readTileV1Run dir fs z x y ps).bundleOpened
      ∧ (readTileV1Run dir fs z x y ps).bundlxOpened ≤ 1
      ∧ (readTileV1Run dir fs z x y ps).bundleOpened ≤ 1)
    ∧ (∀ (dir : String) (fs : FS) (z x y ps : Nat) (info : BundleInfo),
      info = getBundleInfo x y z 128 →
      fs (bundlxPath dir info) = FileState.faulty →
      (readTileV1Run dir fs z x y ps).bundlxOpened = 1
      ∧ (readTileV1Run dir fs z x y ps).bundlxClosed = 0) := by
  refine ⟨?_, ?_, ?_⟩
  · intro dir fs col row level ps
    simp only [readTileV2Run]
    repeat' split
    all_goals exact ⟨rfl, by first | exact Nat.le_refl 1 | exact Nat.zero_le 1⟩
  · intro dir fs z x y ps info hinfo h1 h2
    subst hinfo
    simp only [readTileV1Run]
    split
    · exact ⟨rfl, rfl, Nat.zero_le 1, Nat.zero_le 1⟩
    · next hx => exact absurd hx h1
    · split
      · exact ⟨rfl, rfl, Nat.le_refl 1, Nat.zero_le 1⟩
      · split
        · exact ⟨rfl, rfl, Nat.le_refl 1, Nat.zero_le 1⟩
        · next hb => exact absurd hb h2
        · split
          · exact ⟨rfl, rfl, Nat.le_refl 1, Nat.le_refl 1⟩
          · exact ⟨rfl, rfl, Nat.le_refl 1, Nat.le_refl 1⟩
  · intro dir fs z x y ps info hinfo hx
    subst hinfo
    simp [readTileV1Run, hx]

/-- C9 amended witness: the release discipline evaluated at concrete
file systems — all files missing (no handle leaked) and all files
faulty (the V1 index handle leaks). -/
theorem handle_release_discipline_witness :
    ((readTileV1Run "d" (fun _ => FileState.missing) 0 0 0 128).bundlxClosed
        = (readTileV1Run "d" (fun _ => FileState.missing) 0 0 0 128).bundlxOpened
      ∧ (readTileV1Run "d" (fun _ => FileState.missing) 0 0 0 128).bundleClosed
        = (readTileV1Run "d" (fun _ => FileState.missing) 0 0 0 128).bundleOpened
      ∧ (readTileV1Run "d" (fun _ => FileState.missing) 0 0 0 128).bundlxOpened ≤ 1
      ∧ (readTileV1Run "d" (fun _ => FileState.missing) 0 0 0 128).bundleOpened ≤ 1)
    ∧ ((readTileV1Run "d" (fun _ => FileState.faulty) 0 0 0 128).bundlxOpened = 1
      ∧ (readTileV1Run "d" (fun _ => FileState.faulty) 0 0 0 128).bundlxClosed = 0) := by
  constructor
  · exact handle_release_discipline.2.1 "d" (fun _ => FileState.missing) 0 0 0 128
      (getBundleInfo 0 0 0 128) rfl (by decide) (by decide)
  · exact handle_release_discipline.2.2 "d" (fun _ => FileState.faulty) 0 0 0 128
      (getBundleInfo 0 0 0 128) rfl (by decide)

/-- C10: whenever the level, row or column path parameter parses to 0 or
fails to parse (is falsy), the tile route answers
`400 'Missing parameters'` and invokes no decoder — for every file
system and configuration, so such tiles are unreachable even when they
exist in the cache. -/
theorem falsy_params_yield_400 (fs : FS) (conf : TileConf) (mapName : String)
    (levelP rowP colP : Option Nat)
    (h : isFalsy levelP = true ∨ isFalsy rowP = true ∨ isFalsy colP = true) :
    tileRouteRun fs conf mapName levelP rowP colP
      = ⟨HttpResponse.status 400 "Missing parameters", false, false⟩ := by
  have hcond : ((mapName == "") || isFalsy levelP || isFalsy rowP || isFalsy colP) = true := by
    rcases h with h | h | h <;> simp [h]
  simp [tileRouteRun, hcond]

/-- C10 witness: the 400 rejection at the concrete request level 0,
row 7, column 9 against a v1 cache. -/
theorem falsy_params_yield_400_witness :
    tileRouteRun (fun _ => FileState.missing) ⟨"v1", "png", 128⟩ "m" (some 0) (some 7) (some 9)
      = ⟨HttpResponse.status 400 "Missing parameters", false, false⟩ :=
  falsy_params_yield_400 (fun _ => FileState.missing) ⟨"v1", "png", 128⟩ "m"
    (some 0) (some 7) (some 9) (Or.inl rfl)
